import Mathlib

/-!
Verification of the AS5047U magnetic rotary sensor driver.

This file gives a shallow embedding of the driver core (file
src/AS5047U.cpp together with the register layouts of
inc/AS5047U_REGISTERS.hpp and the declarations of inc/AS5047U.hpp) and
proves properties of the wire-protocol layer: the CRC8 function, the
frame traffic of register reads and writes, the sticky error
accumulator, the retry loops of the high-level getters, the interface
configuration truth table, and the OTP programming sequence.

Modelling conventions:
* machine integers are `Nat` with explicit `% 2^w` at the points where
  the C++ performs a narrowing cast, and `Int` where the source uses
  `int16_t`;
* the SPI bus adapter is an oracle `Bus : Nat → Nat → Nat` giving byte
  `i` of the response to the `n`-th `transfer` call of the driver's
  lifetime (each received byte is reduced `% 256`, matching the
  adapter contract that delivers bytes);
* the driver instance is a record `St` carrying the frame format, the
  pad byte and the sticky error word, plus two observation logs: the
  list of transmitted frames (`trace`, one entry per `spi.transfer`
  call, holding the tx bytes) and the list of `writeRegister`
  invocations (`writes`, recording address and value passed).
-/

namespace AS5047U

/-- The three SPI frame formats of `FrameFormat` (inc/AS5047U_types.hpp). -/
inductive FrameFormat where
  | SPI_16
  | SPI_24
  | SPI_32
deriving DecidableEq, Repr

/-- Error bits of `enum class AS5047U_Error` (inc/AS5047U.hpp).
Each constant is the numeric value of the corresponding enumerator. -/
def AgcWarning : Nat := 1 <<< 0
def MagHalf : Nat := 1 <<< 1
def P2ramWarning : Nat := 1 <<< 2
def P2ramError : Nat := 1 <<< 3
def FramingError : Nat := 1 <<< 4
def CommandError : Nat := 1 <<< 5
def CrcError : Nat := 1 <<< 6
def WatchdogError : Nat := 1 <<< 7
def OffCompError : Nat := 1 <<< 9
def CordicOverflow : Nat := 1 <<< 10

/-- The retry mask `CrcError | FramingError` used by all retry loops. -/
def retryMask : Nat := CrcError ||| FramingError

/-- The SPI bus adapter as a response oracle: `bus n i` is byte `i` of
the full-duplex response to the driver's `n`-th `transfer` call. -/
def Bus : Type := Nat → Nat → Nat

/-- Byte `i` received during transfer `n` (adapter delivers bytes). -/
def rxByte (bus : Bus) (n i : Nat) : Nat := bus n i % 256

/-- Driver state: transfer counter, transmitted-frame log, sticky error
word, current frame format, pad byte, and the `writeRegister` call log. -/
structure St where
  cnt : Nat
  trace : List (List Nat)
  sticky : Nat
  fmt : FrameFormat
  pad : Nat
  writes : List (Nat × Nat)
deriving DecidableEq, Repr

/-- A fresh driver (constructor `AS5047U(bus, frameFormat)`): counter at
zero, empty logs, sticky word 0, pad byte 0. -/
def mkDriver (fmt : FrameFormat) : St :=
  { cnt := 0, trace := [], sticky := 0, fmt := fmt, pad := 0, writes := [] }

/-- One `spi.transfer(tx, rx, len)` call: the tx bytes are appended to
the frame log and the transfer counter advances.  The received bytes
are read off the `Bus` oracle at the pre-call counter value. -/
def transfer (s : St) (tx : List Nat) : St :=
  { s with cnt := s.cnt + 1, trace := s.trace ++ [tx] }

/-- `AS5047U::computeCRC8` (inc/AS5047U.hpp lines 98-105): bit-wise CRC
over the 16-bit input, MSB first; `crc` is a `uint8_t`, so each update
truncates `% 256`; the result is XORed with `0xFF`. -/
def computeCRC8 (data16 : Nat) : Nat :=
  let crc := (List.range 16).foldl
    (fun crc i =>
      let bit := ((data16 >>> (15 - i)) &&& 1) ^^^ ((crc >>> 7) &&& 1)
      ((crc <<< 1) ^^^ (if bit = 1 then 0x1D else 0x00)) % 256)
    0xC4
  crc ^^^ 0xFF

/-- The CRC8 of the spec's description (spec.md section 4.1, worded
independently of the source): fold over the 16 input bits taken MSB
first; at each bit, the feedback is the XOR of the input bit with the
CRC's top bit; shift left, conditionally XOR the polynomial 0x1D, keep
8 bits; initial value 0xC4; final result XORed with 0xFF. -/
def crc8Spec (x : Nat) : Nat :=
  let step := fun (crc : Nat) (b : Bool) =>
    ((crc <<< 1) ^^^ (if b ≠ crc.testBit 7 then 0x1D else 0x00)) % 256
  let bitsMsbFirst := (List.range 16).map (fun i => x.testBit (15 - i))
  (bitsMsbFirst.foldl step 0xC4) ^^^ 0xFF

/-- `AS5047U::updateStickyErrors` (src/AS5047U.cpp lines 294-316): ten
conditional ORs, one per defined ERRFL bit, in source order. -/
def updateStickyErrors (sticky errfl : Nat) : Nat :=
  let s := sticky
  let s := if errfl &&& (1 <<< 0) ≠ 0 then s ||| AgcWarning else s
  let s := if errfl &&& (1 <<< 1) ≠ 0 then s ||| MagHalf else s
  let s := if errfl &&& (1 <<< 2) ≠ 0 then s ||| P2ramWarning else s
  let s := if errfl &&& (1 <<< 3) ≠ 0 then s ||| P2ramError else s
  let s := if errfl &&& (1 <<< 4) ≠ 0 then s ||| FramingError else s
  let s := if errfl &&& (1 <<< 5) ≠ 0 then s ||| CommandError else s
  let s := if errfl &&& (1 <<< 6) ≠ 0 then s ||| CrcError else s
  let s := if errfl &&& (1 <<< 7) ≠ 0 then s ||| WatchdogError else s
  let s := if errfl &&& (1 <<< 9) ≠ 0 then s ||| OffCompError else s
  let s := if errfl &&& (1 <<< 10) ≠ 0 then s ||| CordicOverflow else s
  s

/-- The ten conditional ORs of `updateStickyErrors` as a fold over the
(bit position, flag value) table, used to reason about the chain
uniformly.  Proved equal to `updateStickyErrors` below. -/
def errTable : List (Nat × Nat) :=
  [(0, AgcWarning), (1, MagHalf), (2, P2ramWarning), (3, P2ramError),
   (4, FramingError), (5, CommandError), (6, CrcError), (7, WatchdogError),
   (9, OffCompError), (10, CordicOverflow)]

/-- One conditional OR of the `updateStickyErrors` chain. -/
def errStep (errfl acc : Nat) (pv : Nat × Nat) : Nat :=
  if errfl &&& (1 <<< pv.1) ≠ 0 then acc ||| pv.2 else acc

/-- The 1:1 map of the spec (spec.md sections 3 and 6): each defined
ERRFL bit (positions 0-7, 9, 10 — bit 8 is unused) contributes its
named error flag to the sticky set; since the flag values repeat the
bit positions, the map keeps every defined bit at an unchanged
position. -/
def mappedErrBits (e : Nat) : Nat :=
  (if e.testBit 0 then AgcWarning else 0) |||
  (if e.testBit 1 then MagHalf else 0) |||
  (if e.testBit 2 then P2ramWarning else 0) |||
  (if e.testBit 3 then P2ramError else 0) |||
  (if e.testBit 4 then FramingError else 0) |||
  (if e.testBit 5 then CommandError else 0) |||
  (if e.testBit 6 then CrcError else 0) |||
  (if e.testBit 7 then WatchdogError else 0) |||
  (if e.testBit 9 then OffCompError else 0) |||
  (if e.testBit 10 then CordicOverflow else 0)

/-- `AS5047U::getStickyErrorFlags` (src/AS5047U.cpp lines 318-321):
atomically return the sticky word and reset it to zero. -/
def getStickyErrorFlags (s : St) : Nat × St :=
  (s.sticky, { s with sticky := 0 })

/-- `AS5047U::setPad` (src/AS5047U.cpp lines 324-326); the member is a
`uint8_t`, hence the `% 256`. -/
def setPad (pad : Nat) (s : St) : St :=
  { s with pad := pad % 256 }

/-- `AS5047U::rawReadRegister` (src/AS5047U.cpp lines 359-436): the
two-frame pipelined read in each of the three frame formats.  In the
SPI_24 and SPI_32 branches the source computes `crcDevice` and
`crcCalc` but the mismatch branch `if (crcDevice != crcCalc)` has an
empty body (lines 402-404 and 430-432): the comparison has no effect,
which the dead lets below mirror. -/
def rawReadRegister (bus : Bus) (address : Nat) (s : St) : Nat × St :=
  match s.fmt with
  | FrameFormat.SPI_16 =>
    let cmd := 0x4000 ||| (address &&& 0x3FFF)
    let s1 := transfer s [(cmd >>> 8) % 256, cmd % 256]
    let s2 := transfer s1 [0x00, 0x00]
    let raw := ((rxByte bus (s.cnt + 1) 0) <<< 8) ||| rxByte bus (s.cnt + 1) 1
    (raw &&& 0x3FFF, s2)
  | FrameFormat.SPI_24 =>
    let crc := computeCRC8 ((1 <<< 14) ||| (address &&& 0x3FFF))
    let s1 := transfer s [((address >>> 8) &&& 0x3F) ||| 0x40, address % 256, crc]
    let crcNOP := computeCRC8 ((1 <<< 14) ||| (0x0000 &&& 0x3FFF))
    let s2 := transfer s1 [((0x0000 >>> 8) &&& 0x3F) ||| 0x40, 0x0000 % 256, crcNOP]
    let raw := ((rxByte bus (s.cnt + 1) 0) <<< 8) ||| rxByte bus (s.cnt + 1) 1
    let _crcDevice := rxByte bus (s.cnt + 1) 2
    let _crcCalc := computeCRC8 raw
    -- source: `if (crcDevice != crcCalc) { /* crc error, caller will read ERRFL */ }`
    (raw &&& 0x3FFF, s2)
  | FrameFormat.SPI_32 =>
    let crc := computeCRC8 ((1 <<< 14) ||| (address &&& 0x3FFF))
    let s1 := transfer s [s.pad, ((address >>> 8) &&& 0x3F) ||| 0x40, address % 256, crc]
    let crcNOP := computeCRC8 ((1 <<< 14) ||| (0x0000 &&& 0x3FFF))
    let s2 := transfer s1 [s.pad, ((0x0000 >>> 8) &&& 0x3F) ||| 0x40, 0x0000 % 256, crcNOP]
    let raw := ((rxByte bus (s.cnt + 1) 1) <<< 8) ||| rxByte bus (s.cnt + 1) 2
    let _crcDevice := rxByte bus (s.cnt + 1) 3
    let _crcCalc := computeCRC8 raw
    -- source: `if (crcDevice != crcCalc) { /* crc error, caller will read ERRFL */ }`
    (raw &&& 0x3FFF, s2)

/-- `AS5047U::readRegister` (src/AS5047U.cpp lines 439-444): raw read of
the target register, then a raw read of ERRFL (address 0x0001) whose
value feeds the sticky store. -/
def readRegister (bus : Bus) (address : Nat) (s : St) : Nat × St :=
  let r1 := rawReadRegister bus address s
  let r2 := rawReadRegister bus 0x0001 r1.2
  (r1.1, { r2.2 with sticky := updateStickyErrors r2.2.sticky r2.1 })

/-- The attempt loop of `AS5047U::writeRegister` (src/AS5047U.cpp lines
446-527).  `fuel` counts the remaining attempts (`retries + 1` at the
top call); each attempt sends the two write frames of the current
format, then checks `readReg<ERRFL>().value` — which is a `readRegister`
of ERRFL and therefore itself performs a further ERRFL raw read for the
sticky sweep.  On a clean check the attempt succeeds and the checked
value is discarded; otherwise it is ORed into the sticky store and the
attempt repeats.  (In the source the attempt counter is a `uint8_t`, so
for `retries = 255` the loop only exits via the success break; the fuel
parameter models the `retries + 1` bounded behaviour, exact for all
`retries ≤ 254`.) -/
def writeAttempts (bus : Bus) (address value : Nat) (fuel : Nat) (s : St) : Bool × St :=
  match fuel with
  | 0 => (false, s)
  | f + 1 =>
    match s.fmt with
    | FrameFormat.SPI_16 =>
      let cmd := address &&& 0x3FFF
      let s1 := transfer s [(cmd >>> 8) % 256, cmd % 256]
      let dataFrame := value &&& 0x3FFF
      let s2 := transfer s1 [(dataFrame >>> 8) % 256, dataFrame % 256]
      let r := readRegister bus 0x0001 s2
      if r.1 &&& retryMask = 0 then (true, r.2)
      else writeAttempts bus address value f
        { r.2 with sticky := updateStickyErrors r.2.sticky r.1 }
    | FrameFormat.SPI_24 =>
      let cmdCrc := computeCRC8 ((0 <<< 14) ||| (address &&& 0x3FFF))
      let s1 := transfer s [((address >>> 8) &&& 0x3F) ||| 0x00, address % 256, cmdCrc]
      let dataPayload := value &&& 0x3FFF
      let dataCrc := computeCRC8 dataPayload
      let s2 := transfer s1 [(dataPayload >>> 8) &&& 0xFF, dataPayload % 256, dataCrc]
      let r := readRegister bus 0x0001 s2
      if r.1 &&& retryMask = 0 then (true, r.2)
      else writeAttempts bus address value f
        { r.2 with sticky := updateStickyErrors r.2.sticky r.1 }
    | FrameFormat.SPI_32 =>
      let cmdCrc := computeCRC8 ((0 <<< 14) ||| (address &&& 0x3FFF))
      let s1 := transfer s [s.pad, ((address >>> 8) &&& 0x3F) ||| 0x00, address % 256, cmdCrc]
      let dataPayload := value &&& 0x3FFF
      let dataCrc := computeCRC8 dataPayload
      let s2 := transfer s1 [s.pad, (dataPayload >>> 8) &&& 0xFF, dataPayload % 256, dataCrc]
      let r := readRegister bus 0x0001 s2
      if r.1 &&& retryMask = 0 then (true, r.2)
      else writeAttempts bus address value f
        { r.2 with sticky := updateStickyErrors r.2.sticky r.1 }

/-- `AS5047U::writeRegister`: records the call in the observation log
and runs up to `retries + 1` attempts. -/
def writeRegister (bus : Bus) (address value retries : Nat) (s : St) : Bool × St :=
  writeAttempts bus address value (retries + 1)
    { s with writes := s.writes ++ [(address, value)] }

/-- The retry loop of `AS5047U::getAngle` (src/AS5047U.cpp lines 27-38):
read ANGLECOM (0x3FFF), extract the 14-bit `ANGLECOM_value` field,
drain the sticky set, stop unless it held a CrcError or FramingError
bit.  (In the source the attempt counter is a `uint8_t`, so for
`retries = 255` the loop only exits via the success break;
`getAngleIter` below models that counter exactly, and this fuel form
is its `retries ≤ 254` specialisation.) -/
def getAngleLoop (bus : Bus) (fuel val : Nat) (s : St) : Nat × St :=
  match fuel with
  | 0 => (val, s)
  | f + 1 =>
    let r := readRegister bus 0x3FFF s
    let val := r.1 &&& 0x3FFF
    let d := getStickyErrorFlags r.2
    if d.1 &&& retryMask = 0 then (val, d.2)
    else getAngleLoop bus f val d.2

/-- `AS5047U::getAngle(retries)`: at most `retries + 1` attempts,
initial `val = 0`. -/
def getAngle (bus : Bus) (retries : Nat) (s : St) : Nat × St :=
  getAngleLoop bus (retries + 1) 0 s

/-- The exact attempt loop of `AS5047U::getAngle` (src/AS5047U.cpp
lines 31-36) with the source's `uint8_t` counter semantics: `i` is the
current counter value (the loop is entered only with `i ≤ retries`,
true at `i = 0`), incremented modulo 256 after a failing attempt, and
the loop continues while the incremented counter satisfies
`i ≤ retries` — so for `retries = 255` that condition always holds and
the loop exits only through the success break.  `fuel` is an external
observation bound, not part of the program: `none` means the loop is
still running after `fuel` attempts.  The sibling getter loops share
the same counter shape. -/
def getAngleIter (bus : Bus) (retries : Nat) : Nat → Nat → St → Option (Nat × St)
  | 0, _, _ => none
  | f + 1, i, s =>
    let r := readRegister bus 0x3FFF s
    let val := r.1 &&& 0x3FFF
    let d := getStickyErrorFlags r.2
    if d.1 &&& retryMask = 0 then some (val, d.2)
    else if (i + 1) % 256 ≤ retries then getAngleIter bus retries f ((i + 1) % 256) d.2
    else some (val, d.2)

/-- `AS5047U::getAngle(retries)` under exact `uint8_t` counter
semantics: the counter starts at 0 and `0 ≤ retries` always holds, so
the first attempt always runs; observed for up to `fuel` attempts. -/
def getAngleWrap (bus : Bus) (retries : Nat) (s : St) (fuel : Nat) : Option (Nat × St) :=
  getAngleIter bus retries fuel 0 s

/-- The retry loop of `AS5047U::getRawAngle` (src/AS5047U.cpp lines
40-51): identical shape, register ANGLEUNC (0x3FFE), 14-bit field. -/
def getRawAngleLoop (bus : Bus) (fuel val : Nat) (s : St) : Nat × St :=
  match fuel with
  | 0 => (val, s)
  | f + 1 =>
    let r := readRegister bus 0x3FFE s
    let val := r.1 &&& 0x3FFF
    let d := getStickyErrorFlags r.2
    if d.1 &&& retryMask = 0 then (val, d.2)
    else getRawAngleLoop bus f val d.2

/-- `AS5047U::getRawAngle(retries)`. -/
def getRawAngle (bus : Bus) (retries : Nat) (s : St) : Nat × St :=
  getRawAngleLoop bus (retries + 1) 0 s

/-- Wrap of an integer into `int16_t` (two's complement, 16 bits). -/
def toInt16 (x : Int) : Int :=
  let m := x % 65536
  if m < 32768 then m else m - 65536

/-- The velocity decode of `AS5047U::getVelocity` line 59:
`(int16_t)((int16_t)(v << 2) >> 2)` — shift the 14-bit field up two,
wrap to `int16_t`, arithmetic shift right two (floor division by 4,
C++20 semantics), wrap again. -/
def velDecode (v : Nat) : Int :=
  toInt16 ((toInt16 ((v <<< 2) % 65536)).fdiv 4)

/-- The retry loop of `AS5047U::getVelocity` (src/AS5047U.cpp lines
53-65): register VEL (0x3FFC), 14-bit field sign-extended to 16 bits. -/
def getVelocityLoop (bus : Bus) (fuel : Nat) (val : Int) (s : St) : Int × St :=
  match fuel with
  | 0 => (val, s)
  | f + 1 =>
    let r := readRegister bus 0x3FFC s
    let v := r.1 &&& 0x3FFF
    let val := velDecode v
    let d := getStickyErrorFlags r.2
    if d.1 &&& retryMask = 0 then (val, d.2)
    else getVelocityLoop bus f val d.2

/-- `AS5047U::getVelocity(retries)`. -/
def getVelocity (bus : Bus) (retries : Nat) (s : St) : Int × St :=
  getVelocityLoop bus (retries + 1) 0 s

/-- The retry loop of `AS5047U::getAGC` (src/AS5047U.cpp lines 79-90):
register AGC (0x3FF9), 8-bit `AGC_value` field. -/
def getAGCLoop (bus : Bus) (fuel val : Nat) (s : St) : Nat × St :=
  match fuel with
  | 0 => (val, s)
  | f + 1 =>
    let r := readRegister bus 0x3FF9 s
    let val := r.1 &&& 0xFF
    let d := getStickyErrorFlags r.2
    if d.1 &&& retryMask = 0 then (val, d.2)
    else getAGCLoop bus f val d.2

/-- `AS5047U::getAGC(retries)`. -/
def getAGC (bus : Bus) (retries : Nat) (s : St) : Nat × St :=
  getAGCLoop bus (retries + 1) 0 s

/-- The retry loop of `AS5047U::getMagnitude` (src/AS5047U.cpp lines
92-103): register MAG (0x3FFD), 14-bit `MAG_value` field. -/
def getMagnitudeLoop (bus : Bus) (fuel val : Nat) (s : St) : Nat × St :=
  match fuel with
  | 0 => (val, s)
  | f + 1 =>
    let r := readRegister bus 0x3FFD s
    let val := r.1 &&& 0x3FFF
    let d := getStickyErrorFlags r.2
    if d.1 &&& retryMask = 0 then (val, d.2)
    else getMagnitudeLoop bus f val d.2

/-- `AS5047U::getMagnitude(retries)`. -/
def getMagnitude (bus : Bus) (retries : Nat) (s : St) : Nat × St :=
  getMagnitudeLoop bus (retries + 1) 0 s

/-- Write a value into a bitfield of a 16-bit register word (the C++
union bitfield assignment): clear the field, then OR in the new value
truncated to the field width. -/
def setField (w pos width v : Nat) : Nat :=
  (w &&& (0xFFFF ^^^ (((1 <<< width) - 1) <<< pos))) |||
    ((v &&& ((1 <<< width) - 1)) <<< pos)

/-- Read a bitfield of a 16-bit register word. -/
def getField (w pos width : Nat) : Nat :=
  (w >>> pos) &&& ((1 <<< width) - 1)

/-- `AS5047U::setZeroPosition` (src/AS5047U.cpp lines 140-146): ZPOSM
(0x0016) gets the top 8 of the 14 bits, ZPOSL (0x0017) the low 6; the
second write only happens when the first succeeded (`&&`). -/
def setZeroPosition (bus : Bus) (angleLSB retries : Nat) (s : St) : Bool × St :=
  let m := (angleLSB >>> 6) &&& 0xFF
  let l := angleLSB &&& 0x3F
  let w1 := writeRegister bus 0x0016 m retries s
  if w1.1 then writeRegister bus 0x0017 l retries w1.2
  else (false, w1.2)

/-- `AS5047U::configureInterface` (src/AS5047U.cpp lines 179-195): read
DISABLE (0x0015) and SETTINGS2 (0x0019), set `ABI_off` (bit 1) and
`UVW_off` (bit 0) from the flags, set `UVW_ABI` (bit 3) and `PWMon`
(bit 7) by the three-way case split of the source, then write DISABLE
and, if that succeeded, SETTINGS2 (field positions from
inc/AS5047U_REGISTERS.hpp lines 458-470 and 616-631). -/
def configureInterface (bus : Bus) (abi uvw pwm : Bool) (retries : Nat) (s : St) :
    Bool × St :=
  let rd := readRegister bus 0x0015 s
  let rs := readRegister bus 0x0019 rd.2
  let dis := rd.1
  let st2 := rs.1
  let dis1 := setField dis 1 1 (if abi then 0 else 1)
  let dis2 := setField dis1 0 1 (if uvw then 0 else 1)
  let st2' :=
    if abi && !uvw then
      setField (setField st2 3 1 0) 7 1 (if pwm then 1 else 0)
    else if !abi && uvw then
      setField (setField st2 3 1 1) 7 1 (if pwm then 1 else 0)
    else
      setField (setField st2 3 1 0) 7 1 (if pwm then 1 else 0)
  let w1 := writeRegister bus 0x0015 dis2 retries rs.2
  if w1.1 then writeRegister bus 0x0019 st2' retries w1.2
  else (false, w1.2)

/-- The DISABLE word written by `configureInterface`, as a function of
the word read back and the flags (spec.md section 6 truth table):
`ABI_off` is bit 1, `UVW_off` is bit 0. -/
def confDisValue (abi uvw : Bool) (dis : Nat) : Nat :=
  setField (setField dis 1 1 (if abi then 0 else 1)) 0 1 (if uvw then 0 else 1)

/-- The SETTINGS2 word written by `configureInterface`: `UVW_ABI` is
bit 3, `PWMon` is bit 7, with the three-way case split of the source. -/
def confS2Value (abi uvw pwm : Bool) (st2 : Nat) : Nat :=
  if abi && !uvw then
    setField (setField st2 3 1 0) 7 1 (if pwm then 1 else 0)
  else if !abi && uvw then
    setField (setField st2 3 1 1) 7 1 (if pwm then 1 else 0)
  else
    setField (setField st2 3 1 0) 7 1 (if pwm then 1 else 0)

/-- The shadow-capture loop of `AS5047U::programOTP` (lines 235-238):
`k` successive `readRegister` calls starting at `addr`. -/
def captureShadow (bus : Bus) (k addr : Nat) (s : St) : List Nat × St :=
  match k with
  | 0 => ([], s)
  | k + 1 =>
    let r := readRegister bus addr s
    let rest := captureShadow bus k (addr + 1) r.2
    (r.1 :: rest.1, rest.2)

/-- The shadow-verification loops of `AS5047U::programOTP` (lines
249-254 and 279-284): re-read each register and stop at the first
mismatch. -/
def verifyShadow (bus : Bus) (shadow : List Nat) (addr : Nat) (s : St) : Bool × St :=
  match shadow with
  | [] => (true, s)
  | v :: rest =>
    let r := readRegister bus addr s
    if r.1 = v then verifyShadow bus rest (addr + 1) r.2
    else (false, r.2)

/-- The polling loop of `AS5047U::programOTP` (lines 264-287): poll the
PROG register (0x0003) up to `fuel` times for the literal value 0x0001.
On success the source restores the saved frame format (line 266)
*before* the PROGVER write, the OTPREF pulse and the shadow
verification; on timeout it restores and fails.  `p` is the PROG word
accumulated so far (`PROGEN | PROGOTP`); PROGVER is bit 6, OTPREF is
bit 2 (inc/AS5047U_REGISTERS.hpp lines 157-173). -/
def pollProg (bus : Bus) (backup : FrameFormat) (shadow : List Nat) (p fuel : Nat)
    (s : St) : Bool × St :=
  match fuel with
  | 0 => (false, { s with fmt := backup })
  | f + 1 =>
    let r := readRegister bus 0x0003 s
    if r.1 = 0x0001 then
      let s2 := { r.2 with fmt := backup }
      let p1 := setField p 6 1 1
      let w1 := writeRegister bus 0x0003 p1 0 s2
      let p2 := setField p1 2 1 1
      let w2 := writeRegister bus 0x0003 p2 0 w1.2
      let p3 := setField p2 2 1 0
      let w3 := writeRegister bus 0x0003 p3 0 w2.2
      let vr := verifyShadow bus shadow 0x0016 w3.2
      if vr.1 then (true, vr.2)
      else (false, { vr.2 with fmt := backup })
    else pollProg bus backup shadow p f r.2

/-- `AS5047U::programOTP` (src/AS5047U.cpp lines 224-292): save the
frame format (upgrading SPI_16 to SPI_24), zero the current angle,
snapshot registers 0x0016-0x001A, enable ECC (bit 7 of 0x001B), fetch
the computed checksum (bits 0-6 of 0x3FD0) and write it into the ECC
register (bits 0-6), verify the shadow registers, write PROGEN (bit 0)
then PROGEN|PROGOTP (bit 3) to PROG (0x0003), and poll for completion
(15000 iterations).  All nested reads and writes use the default retry
count 0. -/
def programOTP (bus : Bus) (s0 : St) : Bool × St :=
  let backup := s0.fmt
  let s1 := if s0.fmt = FrameFormat.SPI_16 then { s0 with fmt := FrameFormat.SPI_24 } else s0
  let ga := getAngle bus 0 s1
  let zp := setZeroPosition bus ga.1 0 ga.2
  let cs := captureShadow bus 5 0x0016 zp.2
  let shadow := cs.1
  let re := readRegister bus 0x001B cs.2
  let ecc1 := setField re.1 7 1 1
  let w1 := writeRegister bus 0x001B ecc1 0 re.2
  let rc := readRegister bus 0x3FD0 w1.2
  let key := getField rc.1 0 7
  let ecc2 := setField ecc1 0 7 key
  let w2 := writeRegister bus 0x001B ecc2 0 rc.2
  let v1 := verifyShadow bus shadow 0x0016 w2.2
  if v1.1 then
    let p1 := setField 0 0 1 1
    let wp1 := writeRegister bus 0x0003 p1 0 v1.2
    let p2 := setField p1 3 1 1
    let wp2 := writeRegister bus 0x0003 p2 0 wp1.2
    pollProg bus backup shadow p2 15000 wp2.2
  else (false, { v1.2 with fmt := backup })

/-!
Observation helpers: decoders of the on-the-wire traffic, stated
directly from the frame layout, used to phrase theorems about runs.
-/

/-- The 14-bit payload delivered by the response to transfer `n`: bytes
0 and 1 of the frame in SPI_16/SPI_24, bytes 1 and 2 in SPI_32, masked
to 14 bits. -/
def respPayload (fmt : FrameFormat) (bus : Bus) (n : Nat) : Nat :=
  match fmt with
  | FrameFormat.SPI_16 => (((rxByte bus n 0) <<< 8) ||| rxByte bus n 1) &&& 0x3FFF
  | FrameFormat.SPI_24 => (((rxByte bus n 0) <<< 8) ||| rxByte bus n 1) &&& 0x3FFF
  | FrameFormat.SPI_32 => (((rxByte bus n 1) <<< 8) ||| rxByte bus n 2) &&& 0x3FFF

/-- The CRC byte of the response to transfer `n` (byte 2 in SPI_24,
byte 3 in SPI_32; SPI_16 frames carry no CRC, decoded as byte 2 for
totality). -/
def respCrcByte (fmt : FrameFormat) (bus : Bus) (n : Nat) : Nat :=
  match fmt with
  | FrameFormat.SPI_16 => rxByte bus n 2
  | FrameFormat.SPI_24 => rxByte bus n 2
  | FrameFormat.SPI_32 => rxByte bus n 3

/-- The 16-bit word received in the response to transfer `n` (before
the 14-bit mask), over which the device's CRC is computed. -/
def respWord (fmt : FrameFormat) (bus : Bus) (n : Nat) : Nat :=
  match fmt with
  | FrameFormat.SPI_16 => ((rxByte bus n 0) <<< 8) ||| rxByte bus n 1
  | FrameFormat.SPI_24 => ((rxByte bus n 0) <<< 8) ||| rxByte bus n 1
  | FrameFormat.SPI_32 => ((rxByte bus n 1) <<< 8) ||| rxByte bus n 2

/-- The two tx frames of a register read (command frame, then NOP
frame), per format, as emitted by `rawReadRegister`. -/
def readTxFrames (fmt : FrameFormat) (pad address : Nat) : List (List Nat) :=
  match fmt with
  | FrameFormat.SPI_16 =>
    [[((0x4000 ||| (address &&& 0x3FFF)) >>> 8) % 256, (0x4000 ||| (address &&& 0x3FFF)) % 256],
     [0x00, 0x00]]
  | FrameFormat.SPI_24 =>
    [[((address >>> 8) &&& 0x3F) ||| 0x40, address % 256,
      computeCRC8 ((1 <<< 14) ||| (address &&& 0x3FFF))],
     [0x40, 0x00, computeCRC8 0x4000]]
  | FrameFormat.SPI_32 =>
    [[pad, ((address >>> 8) &&& 0x3F) ||| 0x40, address % 256,
      computeCRC8 ((1 <<< 14) ||| (address &&& 0x3FFF))],
     [pad, 0x40, 0x00, computeCRC8 0x4000]]

/-- The two tx frames of a register write (command frame, then data
frame), per format, as emitted by one attempt of `writeRegister`. -/
def writeTxFrames (fmt : FrameFormat) (pad address value : Nat) : List (List Nat) :=
  match fmt with
  | FrameFormat.SPI_16 =>
    [[((address &&& 0x3FFF) >>> 8) % 256, (address &&& 0x3FFF) % 256],
     [((value &&& 0x3FFF) >>> 8) % 256, (value &&& 0x3FFF) % 256]]
  | FrameFormat.SPI_24 =>
    [[((address >>> 8) &&& 0x3F) ||| 0x00, address % 256,
      computeCRC8 ((0 <<< 14) ||| (address &&& 0x3FFF))],
     [((value &&& 0x3FFF) >>> 8) &&& 0xFF, (value &&& 0x3FFF) % 256,
      computeCRC8 (value &&& 0x3FFF)]]
  | FrameFormat.SPI_32 =>
    [[pad, ((address >>> 8) &&& 0x3F) ||| 0x00, address % 256,
      computeCRC8 ((0 <<< 14) ||| (address &&& 0x3FFF))],
     [pad, ((value &&& 0x3FFF) >>> 8) &&& 0xFF, (value &&& 0x3FFF) % 256,
      computeCRC8 (value &&& 0x3FFF)]]

/-- The accumulated ERRFL observations of `m` consecutive high-level
reads starting when the transfer counter is `n`: each read consumes
four transfers and its ERRFL follow-up payload arrives in transfer
`n + 3`; the defined bits of each observation are ORed together. -/
def errflUnionFrom (fmt : FrameFormat) (bus : Bus) (n m : Nat) : Nat :=
  match m with
  | 0 => 0
  | m + 1 => mappedErrBits (respPayload fmt bus (n + 3)) ||| errflUnionFrom fmt bus (n + 4) m

/-- A sequence of high-level register reads (values discarded). -/
def readSeq (bus : Bus) (addrs : List Nat) (s : St) : St :=
  match addrs with
  | [] => s
  | a :: rest => readSeq bus rest (readRegister bus a s).2

/-- Pad-byte substitution on a driver state (all other fields kept). -/
def padTo (q : Nat) (s : St) : St := { s with pad := q }

/-!
Concrete adapters used by counterexamples and witnesses.
-/

/-- Adapter for the C1 counterexample: the payload response (transfer
1) delivers the word 0x0005 with CRC byte 0x00, which does not match
`computeCRC8 5 = 0x98`; every other response (including both ERRFL
reads) is all zeros, so the device reports no error. -/
def busCrcMismatch : Bus := fun n i =>
  if n = 1 then [0x00, 0x05, 0x00].getD i 0 else 0

/-- Adapter for the C2 counterexample: the first attempt's payload
response (transfer 1) carries the word 0x0005 with a wrong CRC byte;
every later attempt's payload response carries the valid word 0x0007
with a correct CRC; all ERRFL responses are clean. -/
def busFaultyThenValid : Bus := fun n i =>
  if n % 4 = 1 then
    (if n / 4 = 0 then [0x00, 0x05, 0x00] else [0x00, 0x07, computeCRC8 7]).getD i 0
  else 0

/-- Mock adapter for the amended C2: payload responses deliver `a`
while the fault lasts and `b` afterwards; the ERRFL read of each of the
first `k` attempts reports CrcError (bit 6), later ones report no
error.  Attempt `j` occupies transfers `4j .. 4j+3`. -/
def mockBus (k a b : Nat) : Bus := fun n i =>
  if n % 4 = 1 then
    (if n / 4 < k then [a >>> 8, a % 256] else [b >>> 8, b % 256]).getD i 0
  else if n % 4 = 3 then
    (if n / 4 < k then [0x00, 0x40] else [0x00, 0x00]).getD i 0
  else 0

/-- Adapter for the C3 counterexample: a SPI_16 write whose ERRFL check
read (transfer 3) returns 0x0001 (AgcWarning, not a retry trigger) and
whose follow-up ERRFL read (transfer 5) returns 0. -/
def busAgcOnCheck : Bus := fun n i =>
  if n = 3 then [0x00, 0x01].getD i 0 else 0

/-- Adapter for the C4 counterexample, first part: the ERRFL follow-up
of the single read attempt (transfer 3) reports AgcWarning. -/
def busAgcObserved : Bus := fun n i =>
  if n = 3 then [0x00, 0x01].getD i 0 else 0

/-- Adapter for the C4 counterexample, second part: every ERRFL
follow-up response reports CrcError, so retries are always exhausted. -/
def busAlwaysCrcError : Bus := fun n i =>
  if n % 4 = 3 then [0x00, 0x40].getD i 0 else 0

/-- Adapter for the C7 failing input: every response is all zeros
except transfer 89, the PROG poll payload response, which delivers
0x0001 (programming complete). -/
def busOtpDone : Bus := fun n i =>
  if n = 89 then [0x00, 0x01].getD i 0 else 0

/-- The all-zero adapter: every response byte is 0 (register value 0,
no error flags). -/
def busZero : Bus := fun _ _ => 0

end AS5047U

namespace AS5047U

/-!
Supporting lemmas.
-/

/-- Characterization of `rawReadRegister` in SPI_16. -/
theorem rawReadRegister_spi16 (bus : Bus) (a : Nat) (s : St) (h : s.fmt = FrameFormat.SPI_16) :
    rawReadRegister bus a s =
      (respPayload FrameFormat.SPI_16 bus (s.cnt + 1),
       { s with cnt := s.cnt + 2,
                trace := s.trace ++ readTxFrames FrameFormat.SPI_16 s.pad a }) := by
  obtain ⟨c, tr, st, fmt, pd, ws⟩ := s
  simp only at h
  subst h
  simp [rawReadRegister, transfer, readTxFrames, respPayload, Nat.add_assoc]

/-- Characterization of `rawReadRegister` in SPI_24. -/
theorem rawReadRegister_spi24 (bus : Bus) (a : Nat) (s : St) (h : s.fmt = FrameFormat.SPI_24) :
    rawReadRegister bus a s =
      (respPayload FrameFormat.SPI_24 bus (s.cnt + 1),
       { s with cnt := s.cnt + 2,
                trace := s.trace ++ readTxFrames FrameFormat.SPI_24 s.pad a }) := by
  obtain ⟨c, tr, st, fmt, pd, ws⟩ := s
  simp only at h
  subst h
  simp [rawReadRegister, transfer, readTxFrames, respPayload, Nat.add_assoc]

/-- Characterization of `rawReadRegister` in SPI_32. -/
theorem rawReadRegister_spi32 (bus : Bus) (a : Nat) (s : St) (h : s.fmt = FrameFormat.SPI_32) :
    rawReadRegister bus a s =
      (respPayload FrameFormat.SPI_32 bus (s.cnt + 1),
       { s with cnt := s.cnt + 2,
                trace := s.trace ++ readTxFrames FrameFormat.SPI_32 s.pad a }) := by
  obtain ⟨c, tr, st, fmt, pd, ws⟩ := s
  simp only at h
  subst h
  simp [rawReadRegister, transfer, readTxFrames, respPayload, Nat.add_assoc]

/-- Characterization of `readRegister`, uniformly in the format: the
value is the payload of transfer `cnt + 1`, four frames are emitted
(two for the target register, two for the ERRFL sweep), and the sticky
word gains exactly the image of the ERRFL payload of transfer
`cnt + 3`. -/
theorem readRegister_eq (bus : Bus) (a : Nat) (s : St) :
    readRegister bus a s =
      (respPayload s.fmt bus (s.cnt + 1),
       { s with cnt := s.cnt + 4,
                trace := s.trace ++ readTxFrames s.fmt s.pad a
                           ++ readTxFrames s.fmt s.pad 0x0001,
                sticky := updateStickyErrors s.sticky (respPayload s.fmt bus (s.cnt + 3)) }) := by
  rcases hf : s.fmt with _ | _ | _
  · rw [readRegister, rawReadRegister_spi16 bus a s hf,
      rawReadRegister_spi16 bus 0x0001 _ (by simp [hf])]
    simp [hf, List.append_assoc, Nat.add_assoc]
  · rw [readRegister, rawReadRegister_spi24 bus a s hf,
      rawReadRegister_spi24 bus 0x0001 _ (by simp [hf])]
    simp [hf, List.append_assoc, Nat.add_assoc]
  · rw [readRegister, rawReadRegister_spi32 bus a s hf,
      rawReadRegister_spi32 bus 0x0001 _ (by simp [hf])]
    simp [hf, List.append_assoc, Nat.add_assoc]

/-- Pull a conditional OR apart: the accumulator distributes over the
branch. -/
theorem ite_or_shift (c : Prop) [Decidable c] (x v : Nat) :
    (if c then x ||| v else x) = x ||| (if c then v else 0) := by
  split <;> simp

/-- The test `e &&& (1 <<< k) ≠ 0` of `updateStickyErrors` reads bit
`k` of `e`. -/
theorem and_shift_ne_iff (e k : Nat) : (e &&& (1 <<< k) ≠ 0) ↔ (e.testBit k = true) := by
  rw [Nat.shiftLeft_eq, one_mul, Nat.and_two_pow]
  rcases hb : e.testBit k <;> simp [Nat.pos_iff_ne_zero, Nat.pow_pos]

/-- Acting on an empty accumulator, the conditional-OR chain of
`updateStickyErrors` is exactly the spec's 1:1 bit map. -/
theorem updateStickyErrors_zero (e : Nat) : updateStickyErrors 0 e = mappedErrBits e := by
  simp only [updateStickyErrors, ite_or_shift, Nat.zero_or, and_shift_ne_iff, mappedErrBits]

/-- `updateStickyErrors` as the fold of its ten steps. -/
theorem updateStickyErrors_eq_foldl (sticky e : Nat) :
    updateStickyErrors sticky e = errTable.foldl (errStep e) sticky := rfl

/-- The conditional-OR fold splits off its accumulator. -/
theorem foldl_errStep_or (e : Nat) (l : List (Nat × Nat)) :
    ∀ sticky : Nat, l.foldl (errStep e) sticky = sticky ||| l.foldl (errStep e) 0 := by
  induction l with
  | nil => intro sticky; simp
  | cons pv rest ih =>
    intro sticky
    simp only [List.foldl_cons]
    rw [ih (errStep e sticky pv), ih (errStep e 0 pv)]
    unfold errStep
    split
    · simp [Nat.or_assoc]
    · simp

/-- Accumulation is a plain OR: the sticky word after an update is the
old word ORed with the mapped ERRFL bits. -/
theorem updateStickyErrors_or (sticky e : Nat) :
    updateStickyErrors sticky e = sticky ||| updateStickyErrors 0 e := by
  rw [updateStickyErrors_eq_foldl, updateStickyErrors_eq_foldl, foldl_errStep_or]

/-- The XOR of two extracted bits is 1 exactly when the bits differ. -/
theorem xor_bit_eq_one_iff (m n k : Nat) :
    (((m >>> k) &&& 1) ^^^ ((n >>> 7) &&& 1) = 1) ↔ (m.testBit k ≠ n.testBit 7) := by
  rw [Nat.and_one_is_mod, Nat.and_one_is_mod, Nat.testBit_to_div_mod, Nat.testBit_to_div_mod,
    Nat.shiftRight_eq_div_pow, Nat.shiftRight_eq_div_pow]
  generalize m / 2 ^ k = p
  generalize n / 2 ^ 7 = q
  rcases Nat.mod_two_eq_zero_or_one p with h1 | h1 <;>
    rcases Nat.mod_two_eq_zero_or_one q with h2 | h2 <;>
      simp [h1, h2]

/-- The driver's CRC8 agrees with the spec's description on every
input. -/
theorem computeCRC8_eq_spec (x : Nat) : computeCRC8 x = crc8Spec x := by
  simp only [computeCRC8, crc8Spec, List.foldl_map]
  have hfn : (fun (crc i : Nat) =>
      ((crc <<< 1) ^^^
        if ((x >>> (15 - i)) &&& 1) ^^^ ((crc >>> 7) &&& 1) = 1 then 0x1D else 0x00) % 256)
      = (fun (crc i : Nat) =>
      ((crc <<< 1) ^^^ if x.testBit (15 - i) ≠ crc.testBit 7 then 0x1D else 0x00) % 256) := by
    funext crc i
    rw [if_congr (xor_bit_eq_one_iff x crc (15 - i)) rfl rfl]
  rw [hfn]

/-- The sticky word left by a `getAngle` retry loop: drained to zero by
every executed attempt. -/
theorem getAngleLoop_sticky (bus : Bus) :
    ∀ (fuel val : Nat) (s : St),
      ((getAngleLoop bus fuel val s).2).sticky = if fuel = 0 then s.sticky else 0 := by
  intro fuel
  induction fuel with
  | zero => intro val s; simp [getAngleLoop]
  | succ f ih =>
    intro val s
    simp only [getAngleLoop]
    split
    · simp [getStickyErrorFlags]
    · rw [ih]
      rcases Nat.eq_zero_or_pos f with hf | hf
      · simp [hf, getStickyErrorFlags]
      · simp [Nat.pos_iff_ne_zero.mp hf]

/-- The `getAngle` loop value never exceeds the 14-bit range. -/
theorem getAngleLoop_val_le (bus : Bus) :
    ∀ (fuel val : Nat) (s : St), val ≤ 16383 →
      (getAngleLoop bus fuel val s).1 ≤ 16383 := by
  intro fuel
  induction fuel with
  | zero => intro val s h; simpa [getAngleLoop] using h
  | succ f ih =>
    intro val s h
    simp only [getAngleLoop]
    split
    · exact Nat.and_le_right
    · exact ih _ _ Nat.and_le_right

end AS5047U

namespace AS5047U

/-- Sticky drain for the `getRawAngle` loop. -/
theorem getRawAngleLoop_sticky (bus : Bus) :
    ∀ (fuel val : Nat) (s : St),
      ((getRawAngleLoop bus fuel val s).2).sticky = if fuel = 0 then s.sticky else 0 := by
  intro fuel
  induction fuel with
  | zero => intro val s; simp [getRawAngleLoop]
  | succ f ih =>
    intro val s
    simp only [getRawAngleLoop]
    split
    · simp [getStickyErrorFlags]
    · rw [ih]
      rcases Nat.eq_zero_or_pos f with hf | hf
      · simp [hf, getStickyErrorFlags]
      · simp [Nat.pos_iff_ne_zero.mp hf]

/-- Sticky drain for the `getVelocity` loop. -/
theorem getVelocityLoop_sticky (bus : Bus) :
    ∀ (fuel : Nat) (val : Int) (s : St),
      ((getVelocityLoop bus fuel val s).2).sticky = if fuel = 0 then s.sticky else 0 := by
  intro fuel
  induction fuel with
  | zero => intro val s; simp [getVelocityLoop]
  | succ f ih =>
    intro val s
    simp only [getVelocityLoop]
    split
    · simp [getStickyErrorFlags]
    · rw [ih]
      rcases Nat.eq_zero_or_pos f with hf | hf
      · simp [hf, getStickyErrorFlags]
      · simp [Nat.pos_iff_ne_zero.mp hf]

/-- Sticky drain for the `getAGC` loop. -/
theorem getAGCLoop_sticky (bus : Bus) :
    ∀ (fuel val : Nat) (s : St),
      ((getAGCLoop bus fuel val s).2).sticky = if fuel = 0 then s.sticky else 0 := by
  intro fuel
  induction fuel with
  | zero => intro val s; simp [getAGCLoop]
  | succ f ih =>
    intro val s
    simp only [getAGCLoop]
    split
    · simp [getStickyErrorFlags]
    · rw [ih]
      rcases Nat.eq_zero_or_pos f with hf | hf
      · simp [hf, getStickyErrorFlags]
      · simp [Nat.pos_iff_ne_zero.mp hf]

/-- Sticky drain for the `getMagnitude` loop. -/
theorem getMagnitudeLoop_sticky (bus : Bus) :
    ∀ (fuel val : Nat) (s : St),
      ((getMagnitudeLoop bus fuel val s).2).sticky = if fuel = 0 then s.sticky else 0 := by
  intro fuel
  induction fuel with
  | zero => intro val s; simp [getMagnitudeLoop]
  | succ f ih =>
    intro val s
    simp only [getMagnitudeLoop]
    split
    · simp [getStickyErrorFlags]
    · rw [ih]
      rcases Nat.eq_zero_or_pos f with hf | hf
      · simp [hf, getStickyErrorFlags]
      · simp [Nat.pos_iff_ne_zero.mp hf]

/-- The `getRawAngle` loop value stays within 14 bits. -/
theorem getRawAngleLoop_val_le (bus : Bus) :
    ∀ (fuel val : Nat) (s : St), val ≤ 16383 →
      (getRawAngleLoop bus fuel val s).1 ≤ 16383 := by
  intro fuel
  induction fuel with
  | zero => intro val s h; simpa [getRawAngleLoop] using h
  | succ f ih =>
    intro val s h
    simp only [getRawAngleLoop]
    split
    · exact Nat.and_le_right
    · exact ih _ _ Nat.and_le_right

/-- The `getMagnitude` loop value stays within 14 bits. -/
theorem getMagnitudeLoop_val_le (bus : Bus) :
    ∀ (fuel val : Nat) (s : St), val ≤ 16383 →
      (getMagnitudeLoop bus fuel val s).1 ≤ 16383 := by
  intro fuel
  induction fuel with
  | zero => intro val s h; simpa [getMagnitudeLoop] using h
  | succ f ih =>
    intro val s h
    simp only [getMagnitudeLoop]
    split
    · exact Nat.and_le_right
    · exact ih _ _ Nat.and_le_right

/-- The `getAGC` loop value stays within 8 bits. -/
theorem getAGCLoop_val_le (bus : Bus) :
    ∀ (fuel val : Nat) (s : St), val ≤ 255 →
      (getAGCLoop bus fuel val s).1 ≤ 255 := by
  intro fuel
  induction fuel with
  | zero => intro val s h; simpa [getAGCLoop] using h
  | succ f ih =>
    intro val s h
    simp only [getAGCLoop]
    split
    · exact Nat.and_le_right
    · exact ih _ _ Nat.and_le_right

/-- The decode of the velocity field of arbitrary adapter data: the
closed form of the sign extension. -/
theorem velDecode_eq (v : Nat) (h : v ≤ 16383) :
    velDecode v = if v < 8192 then (v : Int) else (v : Int) - 16384 := by
  simp only [velDecode, toInt16]
  have hs : v <<< 2 = v * 4 := by rw [Nat.shiftLeft_eq]
  rw [hs]
  have e1 : ((v * 4 : Nat) : Int) % 65536 = ((v * 4 : Nat) : Int) :=
    Int.emod_eq_of_lt (by omega) (by omega)
  simp only [e1]
  by_cases h1 : v < 8192
  · rw [if_pos (show ((v * 4 : Nat) : Int) < 32768 by omega)]
    have e2 : ((v * 4 : Nat) : Int) = 4 * (v : Int) := by push_cast; ring
    rw [e2, Int.mul_fdiv_cancel_left _ (by norm_num)]
    have e3 : (v : Int) % 65536 = (v : Int) := Int.emod_eq_of_lt (by omega) (by omega)
    simp only [e3]
    rw [if_pos (show (v : Int) < 32768 by omega), if_pos h1]
  · rw [if_neg (show ¬ ((v * 4 : Nat) : Int) < 32768 by omega)]
    have e2 : ((v * 4 : Nat) : Int) - 65536 = 4 * ((v : Int) - 16384) := by push_cast; ring
    rw [e2, Int.mul_fdiv_cancel_left _ (by norm_num)]
    have e3 : ((v : Int) - 16384) % 65536 = (v : Int) - 16384 + 65536 := by
      have e4 : ((v : Int) - 16384 + 65536 * 1) % 65536 = ((v : Int) - 16384) % 65536 :=
        Int.add_mul_emod_self_left ((v : Int) - 16384) 65536 1
      rw [← e4]
      exact Int.emod_eq_of_lt (by omega) (by omega)
    rw [e3, if_neg (by omega), if_neg h1]
    omega

/-- Range of the sign-extended velocity. -/
theorem velDecode_bounds (v : Nat) (h : v ≤ 16383) :
    -8192 ≤ velDecode v ∧ velDecode v ≤ 8191 := by
  rw [velDecode_eq v h]
  split <;> constructor <;> omega

/-- The `getVelocity` loop value stays within the signed 14-bit range. -/
theorem getVelocityLoop_bounds (bus : Bus) :
    ∀ (fuel : Nat) (val : Int) (s : St), -8192 ≤ val → val ≤ 8191 →
      -8192 ≤ (getVelocityLoop bus fuel val s).1 ∧ (getVelocityLoop bus fuel val s).1 ≤ 8191 := by
  intro fuel
  induction fuel with
  | zero => intro val s h1 h2; exact ⟨h1, h2⟩
  | succ f ih =>
    intro val s h1 h2
    simp only [getVelocityLoop]
    have hb := velDecode_bounds ((readRegister bus 0x3FFC s).1 &&& 0x3FFF) Nat.and_le_right
    rw [velDecode_eq _ Nat.and_le_right] at hb ⊢
    split
    · exact hb
    · exact ih _ _ hb.1 hb.2

/-- Across any drain-free sequence of high-level reads, the sticky
word is the initial word ORed with the union of the mapped defined
bits of every ERRFL value the device returned. -/
theorem readSeq_sticky (bus : Bus) (addrs : List Nat) :
    ∀ s : St, (readSeq bus addrs s).sticky
      = s.sticky ||| errflUnionFrom s.fmt bus s.cnt addrs.length := by
  induction addrs with
  | nil => intro s; simp [readSeq, errflUnionFrom]
  | cons a rest ih =>
    intro s
    simp only [readSeq, List.length_cons]
    rw [readRegister_eq, ih]
    simp only [errflUnionFrom]
    rw [updateStickyErrors_or, updateStickyErrors_zero, Nat.or_assoc]

end AS5047U

namespace AS5047U

theorem bytes_recompose (a : Nat) : ((a >>> 8) <<< 8) ||| a % 256 = a := by
  have h256 : (256 : Nat) = 2 ^ 8 := by norm_num
  apply Nat.eq_of_testBit_eq
  intro i
  rw [h256]
  simp only [Nat.testBit_or, Nat.testBit_shiftLeft, Nat.testBit_shiftRight,
    Nat.testBit_mod_two_pow]
  by_cases h : 8 ≤ i
  · have h2 : ¬ i < 8 := by omega
    simp [h, h2, Nat.add_sub_cancel' h]
  · have h2 : i < 8 := by omega
    simp [h, h2]

theorem and14_eq (x : Nat) (hx : x < 16384) : x &&& 0x3FFF = x := by
  rw [show (0x3FFF : Nat) = 2 ^ 14 - 1 from by norm_num, Nat.and_pow_two_sub_one_eq_mod]
  exact Nat.mod_eq_of_lt (by simp only [show (2 : Nat) ^ 14 = 16384 from by norm_num]; exact hx)

theorem payload_decode (x : Nat) (hx : x < 16384) :
    ((((x >>> 8) % 256) <<< 8) ||| (x % 256) % 256) &&& 0x3FFF = x := by
  have e1 : (x >>> 8) % 256 = x >>> 8 :=
    Nat.mod_eq_of_lt (by rw [Nat.shiftRight_eq_div_pow]; omega)
  have e2 : x % 256 % 256 = x % 256 := Nat.mod_eq_of_lt (Nat.mod_lt _ (by norm_num))
  rw [e1, e2, bytes_recompose]
  exact and14_eq x hx

theorem mockBus_payload (k a b j : Nat) (ha : a < 16384) (hb : b < 16384) :
    respPayload FrameFormat.SPI_24 (mockBus k a b) (4 * j + 1) = if j < k then a else b := by
  have h1 : (4 * j + 1) % 4 = 1 := by omega
  have h2 : (4 * j + 1) / 4 = j := by omega
  by_cases hj : j < k
  · simp only [respPayload, rxByte, mockBus, h1, h2, if_pos hj, if_pos rfl]
    simpa [List.getD] using payload_decode a ha
  · simp only [respPayload, rxByte, mockBus, h1, h2, if_neg hj, if_pos rfl]
    simpa [List.getD] using payload_decode b hb

theorem mockBus_errfl (k a b j : Nat) :
    respPayload FrameFormat.SPI_24 (mockBus k a b) (4 * j + 3) = if j < k then 64 else 0 := by
  have h1 : (4 * j + 3) % 4 = 3 := by omega
  have h2 : (4 * j + 3) / 4 = j := by omega
  by_cases hj : j < k
  · simp [respPayload, rxByte, mockBus, h1, h2, hj]
    try decide
  · simp [respPayload, rxByte, mockBus, h1, h2, hj]
    try decide

theorem getAngleLoop_mock (k a b : Nat) (ha : a < 16384) (hb : b < 16384) :
    ∀ (fuel j val : Nat) (s : St), s.cnt = 4 * j → s.sticky = 0 →
      s.fmt = FrameFormat.SPI_24 →
      (getAngleLoop (mockBus k a b) fuel val s).1
        = if fuel = 0 then val else if k < j + fuel then b else a := by
  intro fuel
  induction fuel with
  | zero => intro j val s _ _ _; simp [getAngleLoop]
  | succ f ih =>
    intro j val s hcnt hsticky hfmt
    simp only [getAngleLoop]
    rw [if_neg (show ¬ f + 1 = 0 by omega)]
    rw [readRegister_eq, hfmt, hcnt, mockBus_payload k a b j ha hb]
    simp only [getStickyErrorFlags, hsticky]
    rw [show 4 * j + 3 = 4 * j + 3 from rfl]
    by_cases hj : j < k
    · rw [if_pos hj]
      rw [show updateStickyErrors 0 (respPayload FrameFormat.SPI_24 (mockBus k a b) (4 * j + 3))
            = 64 from by rw [mockBus_errfl k a b j, if_pos hj]; decide]
      rw [if_neg (show ¬ (64 &&& retryMask = 0) from by decide)]
      rw [ih (j + 1) (a &&& 0x3FFF) _ (by simp; omega) (by simp) (by simp [hfmt])]
      rcases Nat.eq_zero_or_pos f with hf | hf
      · rw [if_pos hf, if_neg (show ¬ k < j + (f + 1) by omega)]
        exact and14_eq a ha
      · rw [if_neg (show ¬ f = 0 by omega)]
        by_cases hkf : k < j + 1 + f
        · rw [if_pos hkf, if_pos (show k < j + (f + 1) by omega)]
        · rw [if_neg hkf, if_neg (show ¬ k < j + (f + 1) by omega)]
    · rw [if_neg hj]
      rw [show updateStickyErrors 0 (respPayload FrameFormat.SPI_24 (mockBus k a b) (4 * j + 3))
            = 0 from by rw [mockBus_errfl k a b j, if_neg hj]; decide]
      rw [if_pos (show (0 &&& retryMask = 0) from by decide)]
      rw [if_pos (show k < j + (f + 1) by omega)]
      exact and14_eq b hb

/-- A positive-fuel step of the angle loop ignores the incoming
accumulator. -/
theorem getAngleLoop_val_irrel (bus : Bus) (m v w : Nat) (s : St) :
    getAngleLoop bus (m + 1) v s = getAngleLoop bus (m + 1) w s := by
  simp only [getAngleLoop]

/-- For `retries ≤ 254` the `uint8_t` counter never wraps: starting
from counter value `i ≤ retries` the exact loop terminates within
`retries + 1 - i` attempts and computes exactly the bounded fuel
loop. -/
theorem getAngleIter_bounded (bus : Bus) (r : Nat) (hr : r ≤ 254) :
    ∀ (fuel i : Nat) (s : St), i ≤ r → fuel = r + 1 - i →
      getAngleIter bus r fuel i s = some (getAngleLoop bus fuel 0 s) := by
  intro fuel
  induction fuel with
  | zero => intro i s hi hf; exact absurd hf (by omega)
  | succ f ih =>
    intro i s hi hf
    simp only [getAngleIter, getAngleLoop]
    split
    · rfl
    · rw [Nat.mod_eq_of_lt (show i + 1 < 256 by omega)]
      by_cases hir : i + 1 ≤ r
      · rw [if_pos hir, ih (i + 1) _ hir (by omega)]
        obtain ⟨g, hg⟩ : ∃ g, f = g + 1 := ⟨r - (i + 1), by omega⟩
        subst hg
        exact congrArg some (getAngleLoop_val_irrel bus g 0 _ _)
      · rw [if_neg hir]
        rw [show f = 0 by omega]
        simp [getAngleLoop]

/-- At `retries = 255` the exact loop never exits through the counter:
against the mock adapter it is still running while faulty attempts
remain and terminates with the post-fault value on the first clean
attempt, however large `k` is. -/
theorem getAngleIter_mock255 (k a b : Nat) (ha : a < 16384) (hb : b < 16384) :
    ∀ (fuel i j : Nat) (s : St), s.cnt = 4 * j → s.sticky = 0 →
      s.fmt = FrameFormat.SPI_24 → j ≤ k →
      (getAngleIter (mockBus k a b) 255 fuel i s).map Prod.fst
        = if k < j + fuel then some b else none := by
  intro fuel
  induction fuel with
  | zero =>
    intro i j s _ _ _ hjk
    rw [if_neg (show ¬ k < j + 0 by omega)]
    rfl
  | succ f ih =>
    intro i j s hcnt hsticky hfmt hjk
    simp only [getAngleIter]
    rw [readRegister_eq, hfmt, hcnt, mockBus_payload k a b j ha hb]
    simp only [getStickyErrorFlags, hsticky]
    by_cases hj : j < k
    · rw [if_pos hj]
      rw [show updateStickyErrors 0 (respPayload FrameFormat.SPI_24 (mockBus k a b) (4 * j + 3))
            = 64 from by rw [mockBus_errfl k a b j, if_pos hj]; decide]
      rw [if_neg (show ¬ (64 &&& retryMask = 0) from by decide)]
      rw [if_pos (show (i + 1) % 256 ≤ 255 by omega)]
      rw [ih ((i + 1) % 256) (j + 1) _ (by simp; omega) (by simp) (by simp [hfmt]) (by omega)]
      by_cases hkf : k < j + 1 + f
      · rw [if_pos hkf, if_pos (show k < j + (f + 1) by omega)]
      · rw [if_neg hkf, if_neg (show ¬ k < j + (f + 1) by omega)]
    · rw [if_neg hj]
      rw [show updateStickyErrors 0 (respPayload FrameFormat.SPI_24 (mockBus k a b) (4 * j + 3))
            = 0 from by rw [mockBus_errfl k a b j, if_neg hj]; decide]
      rw [if_pos (show (0 &&& retryMask = 0) from by decide)]
      rw [if_pos (show k < j + (f + 1) by omega)]
      simp [and14_eq b hb]

end AS5047U

namespace AS5047U

/-- A read-frame pair always has exactly two frames. -/
theorem readTxFrames_length (fmt : FrameFormat) (pad a : Nat) :
    (readTxFrames fmt pad a).length = 2 := by
  cases fmt <;> rfl

/-- One attempt of the write loop: two write frames, a full ERRFL
`readRegister` (four more transfers), then the retry decision on the
checked ERRFL value of transfer `cnt + 3`; the follow-up observation
of transfer `cnt + 5` always reaches the sticky store, the checked
value only on a failing attempt. -/
theorem writeAttempts_succ (bus : Bus) (a v f : Nat) (s : St) :
    writeAttempts bus a v (f + 1) s =
      (if respPayload s.fmt bus (s.cnt + 3) &&& retryMask = 0 then
        (true, { s with
                 cnt := s.cnt + 6,
                 trace := s.trace ++ writeTxFrames s.fmt s.pad a v
                          ++ readTxFrames s.fmt s.pad 0x0001 ++ readTxFrames s.fmt s.pad 0x0001,
                 sticky := updateStickyErrors s.sticky (respPayload s.fmt bus (s.cnt + 5)) })
      else
        writeAttempts bus a v f
          { s with
            cnt := s.cnt + 6,
            trace := s.trace ++ writeTxFrames s.fmt s.pad a v
                     ++ readTxFrames s.fmt s.pad 0x0001 ++ readTxFrames s.fmt s.pad 0x0001,
            sticky := updateStickyErrors
              (updateStickyErrors s.sticky (respPayload s.fmt bus (s.cnt + 5)))
              (respPayload s.fmt bus (s.cnt + 3)) }) := by
  rcases hf : s.fmt with _ | _ | _ <;>
    simp only [writeAttempts, hf] <;>
    rw [readRegister_eq] <;>
    simp [transfer, hf, writeTxFrames, List.append_assoc, Nat.add_assoc]

end AS5047U

namespace AS5047U

/-- The write-attempt loop never touches the write log, the format or
the pad byte. -/
theorem writeAttempts_inv (bus : Bus) (a v : Nat) :
    ∀ (fuel : Nat) (s : St),
      ((writeAttempts bus a v fuel s).2).writes = s.writes ∧
      ((writeAttempts bus a v fuel s).2).fmt = s.fmt ∧
      ((writeAttempts bus a v fuel s).2).pad = s.pad := by
  intro fuel
  induction fuel with
  | zero => intro s; exact ⟨rfl, rfl, rfl⟩
  | succ f ih =>
    intro s
    rw [writeAttempts_succ]
    split
    · exact ⟨rfl, rfl, rfl⟩
    · exact ih _

/-- `writeRegister` appends exactly its own (address, value) record to
the write log. -/
theorem writeRegister_writes (bus : Bus) (a v r : Nat) (s : St) :
    ((writeRegister bus a v r s).2).writes = s.writes ++ [(a, v)] := by
  rw [writeRegister, (writeAttempts_inv bus a v (r + 1) _).1]

/-- A zero-retry write whose ERRFL check is clean: the attempt
succeeds, and the sticky store gains only the follow-up ERRFL
observation — the checked ERRFL value (transfer `cnt + 3`) is
discarded. -/
theorem writeRegister_success (bus : Bus) (a v : Nat) (s : St)
    (hc : respPayload s.fmt bus (s.cnt + 3) &&& retryMask = 0) :
    (writeRegister bus a v 0 s).1 = true ∧
    ((writeRegister bus a v 0 s).2).sticky
      = updateStickyErrors s.sticky (respPayload s.fmt bus (s.cnt + 5)) := by
  rw [writeRegister, writeAttempts_succ]
  simp only [hc]
  simp

/-- Frame-count bound for the `getAngle` retry loop. -/
theorem getAngleLoop_trace (bus : Bus) :
    ∀ (fuel val : Nat) (s : St),
      ((getAngleLoop bus fuel val s).2).trace.length ≤ s.trace.length + 4 * fuel := by
  intro fuel
  induction fuel with
  | zero => intro val s; simp [getAngleLoop]
  | succ f ih =>
    intro val s
    simp only [getAngleLoop]
    split
    · simp [getStickyErrorFlags, readRegister_eq, readTxFrames_length]
    · calc ((getAngleLoop bus f _ _).2).trace.length
          ≤ _ := ih _ _
        _ ≤ s.trace.length + 4 * (f + 1) := by
            simp [getStickyErrorFlags, readRegister_eq, readTxFrames_length]
            omega

end AS5047U

namespace AS5047U

theorem testBit_ffff (i : Nat) : Nat.testBit 65535 i = decide (i < 16) := by
  rw [show (65535 : Nat) = 2 ^ 16 - 1 from by norm_num, Nat.testBit_two_pow_sub_one]

theorem testBit_one (j : Nat) : Nat.testBit 1 j = decide (0 = j) := by
  rw [show (1 : Nat) = 2 ^ 0 from rfl, Nat.testBit_two_pow]

theorem testBit_setField1 (w p v i : Nat) (hv : v ≤ 1) (hp : p < 16) :
    (setField w p 1 v).testBit i
      = if i = p then decide (v = 1) else (w.testBit i && decide (i < 16)) := by
  have h1 : ((1 : Nat) <<< 1) - 1 = 1 := by decide
  have h2 : (0xFFFF : Nat) = 2 ^ 16 - 1 := by norm_num
  have h3 : (1 : Nat) <<< p = 2 ^ p := by rw [Nat.shiftLeft_eq, one_mul]
  rcases Nat.le_one_iff_eq_zero_or_eq_one.mp hv with hv' | hv' <;> subst hv'
  · simp only [setField, h1, h2, h3, Nat.zero_and, Nat.zero_shiftLeft, Nat.testBit_or,
      Nat.testBit_and, Nat.testBit_xor, Nat.testBit_two_pow_sub_one, Nat.testBit_two_pow,
      Nat.zero_testBit, Bool.or_false]
    by_cases hip : i = p
    · subst hip
      simp [hp]
    · simp [hip, show ¬ p = i from fun hh => hip hh.symm]
  · simp only [setField, h1, h2, h3, show (1 : Nat) &&& 1 = 1 from rfl, Nat.testBit_or,
      Nat.testBit_and, Nat.testBit_xor, Nat.testBit_two_pow_sub_one, Nat.testBit_two_pow,
      Nat.testBit_shiftLeft, show (1 : Nat) = 2 ^ 0 from rfl, Nat.testBit_two_pow]
    by_cases hip : i = p
    · subst hip
      simp [hp]
    · simp [hip, show ¬ p = i from fun hh => hip hh.symm]
      by_cases hpi : p ≤ i
      · simp [hpi, testBit_ffff, testBit_one, show ¬ (0 : Nat) = i - p from by omega]
      · simp [hpi, testBit_ffff]

end AS5047U

namespace AS5047U

/-- Reading a one-bit field. -/
theorem getField1_testBit (x p : Nat) : getField x p 1 = if x.testBit p then 1 else 0 := by
  unfold getField
  rw [show ((1 : Nat) <<< 1) - 1 = 1 from by decide, Nat.and_one_is_mod,
    Nat.shiftRight_eq_div_pow, Nat.testBit_to_div_mod]
  rcases Nat.mod_two_eq_zero_or_one (x / 2 ^ p) with h | h <;> simp [h]

/-- Reading back the field just assigned. -/
theorem getField1_setField1_same (w p v : Nat) (hv : v ≤ 1) (hp : p < 16) :
    getField (setField w p 1 v) p 1 = v := by
  rw [getField1_testBit, testBit_setField1 _ _ _ _ hv hp, if_pos rfl]
  rcases Nat.le_one_iff_eq_zero_or_eq_one.mp hv with h | h <;> subst h <;> simp

/-- Assigning one field leaves the others unchanged. -/
theorem getField1_setField1_other (w p q v : Nat) (hv : v ≤ 1) (hq : q < 16) (hp : p < 16)
    (hpq : p ≠ q) :
    getField (setField w q 1 v) p 1 = getField w p 1 := by
  rw [getField1_testBit, getField1_testBit, testBit_setField1 _ _ _ _ hv hq, if_neg hpq]
  simp [hp]

/-- `readRegister` never touches the write log. -/
theorem readRegister_writes (bus : Bus) (a : Nat) (s : St) :
    ((readRegister bus a s).2).writes = s.writes := by
  rw [readRegister_eq]

/-- The four output fields of the interface truth table, for every
flag combination and every pair of read-back words. -/
theorem conf_fields (abi uvw pwm : Bool) (dis st2 : Nat) :
    getField (confDisValue abi uvw dis) 1 1 = (if abi then 0 else 1) ∧
    getField (confDisValue abi uvw dis) 0 1 = (if uvw then 0 else 1) ∧
    getField (confS2Value abi uvw pwm st2) 3 1 = (if uvw && !abi then 1 else 0) ∧
    getField (confS2Value abi uvw pwm st2) 7 1 = (if pwm then 1 else 0) := by
  cases abi <;> cases uvw <;> cases pwm <;>
    simp [confDisValue, confS2Value, getField1_setField1_same, getField1_setField1_other]

end AS5047U

namespace AS5047U

/-- The write log of `configureInterface`: the DISABLE write always
happens; the SETTINGS2 write follows when it succeeded. -/
theorem configureInterface_writes (bus : Bus) (abi uvw pwm : Bool) (r : Nat) (s : St) :
    ((configureInterface bus abi uvw pwm r s).2).writes
      = s.writes ++ [(0x0015, confDisValue abi uvw ((readRegister bus 0x0015 s).1))] ∨
    ((configureInterface bus abi uvw pwm r s).2).writes
      = s.writes ++ [(0x0015, confDisValue abi uvw ((readRegister bus 0x0015 s).1)),
                     (0x0019, confS2Value abi uvw pwm
                       ((readRegister bus 0x0019 (readRegister bus 0x0015 s).2).1))] := by
  cases abi <;> cases uvw <;> cases pwm <;>
    simp only [configureInterface, confDisValue, confS2Value, Bool.and_self, Bool.not_true,
      Bool.not_false, Bool.and_true, Bool.and_false, Bool.true_and, Bool.false_and,
      if_true, if_false, Bool.false_eq_true, Bool.true_eq_false] <;>
    split <;>
    first
      | (right; simp [writeRegister_writes, readRegister_writes, List.append_assoc]; done)
      | (left; simp [writeRegister_writes, readRegister_writes]; done)

/-- Read frames do not depend on the pad byte outside SPI_32. -/
theorem readTxFrames_pad (fmt : FrameFormat) (h : fmt ≠ FrameFormat.SPI_32) (p q a : Nat) :
    readTxFrames fmt p a = readTxFrames fmt q a := by
  rcases fmt with _ | _ | _
  · rfl
  · rfl
  · exact absurd rfl h

/-- Write frames do not depend on the pad byte outside SPI_32. -/
theorem writeTxFrames_pad (fmt : FrameFormat) (h : fmt ≠ FrameFormat.SPI_32) (p q a v : Nat) :
    writeTxFrames fmt p a v = writeTxFrames fmt q a v := by
  rcases fmt with _ | _ | _
  · rfl
  · rfl
  · exact absurd rfl h

/-- Pad-byte noninterference of `rawReadRegister` in SPI_16/SPI_24. -/
theorem rawReadRegister_pad (bus : Bus) (a q : Nat) (s : St) (h : s.fmt ≠ FrameFormat.SPI_32) :
    rawReadRegister bus a (padTo q s)
      = ((rawReadRegister bus a s).1, padTo q ((rawReadRegister bus a s).2)) := by
  obtain ⟨c, tr, st, fmt, pd, ws⟩ := s
  rcases fmt with _ | _ | _
  · rw [rawReadRegister_spi16 bus a _ rfl, rawReadRegister_spi16 bus a _ rfl]
    simp [padTo, readTxFrames]
  · rw [rawReadRegister_spi24 bus a _ rfl, rawReadRegister_spi24 bus a _ rfl]
    simp [padTo, readTxFrames]
  · exact absurd rfl h

/-- Pad-byte noninterference of `readRegister` in SPI_16/SPI_24. -/
theorem readRegister_pad (bus : Bus) (a q : Nat) (s : St) (h : s.fmt ≠ FrameFormat.SPI_32) :
    readRegister bus a (padTo q s)
      = ((readRegister bus a s).1, padTo q ((readRegister bus a s).2)) := by
  obtain ⟨c, tr, st, fmt, pd, ws⟩ := s
  rcases fmt with _ | _ | _
  · rw [readRegister_eq, readRegister_eq]
    simp [padTo, readTxFrames]
  · rw [readRegister_eq, readRegister_eq]
    simp [padTo, readTxFrames]
  · exact absurd rfl h

/-- Pad-byte noninterference of the write-attempt loop in
SPI_16/SPI_24. -/
theorem writeAttempts_pad (bus : Bus) (a v q : Nat) :
    ∀ (fuel : Nat) (s : St), s.fmt ≠ FrameFormat.SPI_32 →
      writeAttempts bus a v fuel (padTo q s)
        = ((writeAttempts bus a v fuel s).1, padTo q ((writeAttempts bus a v fuel s).2)) := by
  intro fuel
  induction fuel with
  | zero => intro s _; rfl
  | succ f ih =>
    intro s hs
    obtain ⟨c, tr, st, fmt, pd, ws⟩ := s
    simp only at hs
    rw [writeAttempts_succ, writeAttempts_succ]
    simp only [padTo]
    rw [writeTxFrames_pad fmt hs q pd, readTxFrames_pad fmt hs q pd]
    split
    · rfl
    · exact ih { cnt := c + 6,
                 trace := tr ++ writeTxFrames fmt pd a v ++ readTxFrames fmt pd 0x0001
                          ++ readTxFrames fmt pd 0x0001,
                 sticky := updateStickyErrors
                   (updateStickyErrors st (respPayload fmt bus (c + 5)))
                   (respPayload fmt bus (c + 3)),
                 fmt := fmt, pad := pd, writes := ws } hs

/-- Pad-byte noninterference of `writeRegister` in SPI_16/SPI_24. -/
theorem writeRegister_pad (bus : Bus) (a v r q : Nat) (s : St)
    (h : s.fmt ≠ FrameFormat.SPI_32) :
    writeRegister bus a v r (padTo q s)
      = ((writeRegister bus a v r s).1, padTo q ((writeRegister bus a v r s).2)) := by
  rw [writeRegister, writeRegister]
  have : { padTo q s with writes := (padTo q s).writes ++ [(a, v)] }
      = padTo q { s with writes := s.writes ++ [(a, v)] } := rfl
  rw [this]
  exact writeAttempts_pad bus a v q (r + 1)
    { cnt := s.cnt, trace := s.trace, sticky := s.sticky, fmt := s.fmt, pad := s.pad,
      writes := s.writes ++ [(a, v)] } h

end AS5047U

namespace AS5047U

/-!
Claim theorems.
-/

/-- C1 (counterexample): in a Format24 read transaction the response
CRC byte (0x00) differs from the CRC8 of the received word (0x0005),
the device's own ERRFL reads back clear — and, contrary to the claim,
no CrcError bit is added to the sticky set: the driver's CRC
comparison has an empty body, so the mismatch is discarded (the 14-bit
payload is still returned). -/
theorem spec_C1_cex :
    respCrcByte FrameFormat.SPI_24 busCrcMismatch 1
      ≠ computeCRC8 (respWord FrameFormat.SPI_24 busCrcMismatch 1) ∧
    (readRegister busCrcMismatch 0x3FFF (mkDriver FrameFormat.SPI_24)).1 = 5 ∧
    ((readRegister busCrcMismatch 0x3FFF (mkDriver FrameFormat.SPI_24)).2).sticky &&& CrcError
      = 0 := by
  refine ⟨by decide, by decide, by decide⟩

/-- C1 (amended): for every read transaction under Format24 or
Format32, no exception is raised and the decoded 14-bit payload is
always returned to the caller, but the driver performs no CRC check of
its own: the sticky set gains exactly the image of the ERRFL value the
device reports in the follow-up read — a CrcError bit appears only if
the device's own error-flag register reports one, never from the
driver's comparison of the response CRC byte. -/
theorem spec_C1 (bus : Bus) (a : Nat) (s : St)
    (_h : s.fmt = FrameFormat.SPI_24 ∨ s.fmt = FrameFormat.SPI_32) :
    (readRegister bus a s).1 = respPayload s.fmt bus (s.cnt + 1) ∧
    ((readRegister bus a s).2).sticky
      = updateStickyErrors s.sticky (respPayload s.fmt bus (s.cnt + 3)) := by
  rw [readRegister_eq]
  exact ⟨rfl, rfl⟩

/-- Witness for C1 at the concrete mismatching adapter. -/
theorem spec_C1_witness :
    ((mkDriver FrameFormat.SPI_24).fmt = FrameFormat.SPI_24 ∨
     (mkDriver FrameFormat.SPI_24).fmt = FrameFormat.SPI_32) ∧
    ((readRegister busCrcMismatch 0x3FFF (mkDriver FrameFormat.SPI_24)).1
       = respPayload (mkDriver FrameFormat.SPI_24).fmt busCrcMismatch
           ((mkDriver FrameFormat.SPI_24).cnt + 1) ∧
     ((readRegister busCrcMismatch 0x3FFF (mkDriver FrameFormat.SPI_24)).2).sticky
       = updateStickyErrors (mkDriver FrameFormat.SPI_24).sticky
           (respPayload (mkDriver FrameFormat.SPI_24).fmt busCrcMismatch
             ((mkDriver FrameFormat.SPI_24).cnt + 3))) :=
  ⟨Or.inl rfl, spec_C1 busCrcMismatch 0x3FFF (mkDriver FrameFormat.SPI_24) (Or.inl rfl)⟩

/-- C2 (counterexample): against an adapter whose first payload
response is CRC-faulty (word 0x0005, wrong CRC byte) and valid
afterwards (word 0x0007, correct CRC), with the device's ERRFL always
clear, getAngle(retries = 1) returns the faulty value 5 and not the
valid value 7 — contradicting the claim that k = 1 ≤ r = 1 yields the
valid value, because the driver never checks the response CRC.  The
exact `uint8_t`-counter model agrees: its first attempt drains no
retry bit and it stops at the faulty value 5. -/
theorem spec_C2_cex :
    respCrcByte FrameFormat.SPI_24 busFaultyThenValid 1
      ≠ computeCRC8 (respWord FrameFormat.SPI_24 busFaultyThenValid 1) ∧
    respCrcByte FrameFormat.SPI_24 busFaultyThenValid 5
      = computeCRC8 (respWord FrameFormat.SPI_24 busFaultyThenValid 5) ∧
    respPayload FrameFormat.SPI_24 busFaultyThenValid 5 = 7 ∧
    (getAngle busFaultyThenValid 1 (mkDriver FrameFormat.SPI_24)).1 = 5 ∧
    (getAngleWrap busFaultyThenValid 1 (mkDriver FrameFormat.SPI_24) 2).map Prod.fst
      = some 5 ∧
    (5 : Nat) ≠ 7 := by
  refine ⟨by decide, by decide, by decide, by decide, by decide, by decide⟩

/-- C2 (amended): the retry loop's attempt counter is a `uint8_t`.
For retries ≤ 254 the counter never wraps: getAngle(r) performs at
most r + 1 read attempts (within 4 (r + 1) frames), retrying exactly
when the drained sticky set holds CrcError or FramingError — bits
that can only come from the device's ERRFL, never from a local CRC
check — and against a mock adapter whose ERRFL reads report CrcError
during the first k attempts and no error afterwards it returns the
post-fault value if and only if k ≤ r.  For retries = 255 the wrapped
counter always satisfies i ≤ retries, so the loop retries without
bound until a clean drain: against the same mock it is still running
after every fuel ≤ k attempts and returns the post-fault value on
attempt k + 1, for arbitrarily large k, so no frame bound holds. -/
theorem spec_C2 (r k a b : Nat) (ha : a < 16384) (hb : b < 16384) (hab : a ≠ b) :
    (r ≤ 254 →
      (∀ (bus : Bus) (s : St), getAngleWrap bus r s (r + 1) = some (getAngle bus r s)) ∧
      ((getAngle (mockBus k a b) r (mkDriver FrameFormat.SPI_24)).1 = b ↔ k ≤ r) ∧
      ∀ (bus : Bus) (s : St),
        ((getAngle bus r s).2).trace.length ≤ s.trace.length + 4 * (r + 1)) ∧
    (getAngleWrap (mockBus k a b) 255 (mkDriver FrameFormat.SPI_24) (k + 1)).map Prod.fst
      = some b ∧
    ∀ f, f ≤ k →
      getAngleWrap (mockBus k a b) 255 (mkDriver FrameFormat.SPI_24) f = none := by
  refine ⟨fun hr => ⟨?_, ?_, ?_⟩, ?_, ?_⟩
  · intro bus s
    rw [getAngleWrap, getAngle]
    exact getAngleIter_bounded bus r hr (r + 1) 0 s (Nat.zero_le r) (by omega)
  · have h := getAngleLoop_mock k a b ha hb (r + 1) 0 0 (mkDriver FrameFormat.SPI_24) rfl rfl rfl
    rw [getAngle, h, if_neg (show ¬ r + 1 = 0 by omega)]
    constructor
    · intro he
      by_cases hk : k ≤ r
      · exact hk
      · rw [if_neg (show ¬ k < 0 + (r + 1) by omega)] at he
        exact absurd he hab
    · intro hk
      rw [if_pos (show k < 0 + (r + 1) by omega)]
  · intro bus s
    exact getAngleLoop_trace bus (r + 1) 0 s
  · have h := getAngleIter_mock255 k a b ha hb (k + 1) 0 0 (mkDriver FrameFormat.SPI_24)
      rfl rfl rfl (Nat.zero_le k)
    rw [getAngleWrap, h, if_pos (show k < 0 + (k + 1) by omega)]
  · intro f hf
    have h := getAngleIter_mock255 k a b ha hb f 0 0 (mkDriver FrameFormat.SPI_24)
      rfl rfl rfl (Nat.zero_le k)
    rw [if_neg (show ¬ k < 0 + f by omega)] at h
    rw [getAngleWrap]
    cases hx : getAngleIter (mockBus k a b) 255 f 0 (mkDriver FrameFormat.SPI_24) with
    | none => rfl
    | some p => rw [hx] at h; simp at h

/-- Witness for C2 at k = 1, r = 1, fault value 5, valid value 7. -/
theorem spec_C2_witness :
    ((1 : Nat) ≤ 254 →
      (∀ (bus : Bus) (s : St), getAngleWrap bus 1 s (1 + 1) = some (getAngle bus 1 s)) ∧
      ((getAngle (mockBus 1 5 7) 1 (mkDriver FrameFormat.SPI_24)).1 = 7 ↔ 1 ≤ 1) ∧
      ∀ (bus : Bus) (s : St),
        ((getAngle bus 1 s).2).trace.length ≤ s.trace.length + 4 * (1 + 1)) ∧
    (getAngleWrap (mockBus 1 5 7) 255 (mkDriver FrameFormat.SPI_24) (1 + 1)).map Prod.fst
      = some 7 ∧
    ∀ f, f ≤ 1 →
      getAngleWrap (mockBus 1 5 7) 255 (mkDriver FrameFormat.SPI_24) f = none :=
  spec_C2 1 1 5 7 (by decide) (by decide) (by decide)

end AS5047U

namespace AS5047U

/-- C3 (counterexample): a single Format16 write transaction in which
the device returns ERRFL = 0x0001 (AgcWarning) for the retry-check
read and 0x0000 for the follow-up read.  The attempt succeeds, and the
sticky set observed afterwards is empty — not the union of the mapped
defined bits of the two ERRFL values the device returned (which is
AgcWarning): the successful attempt discards its checked ERRFL value. -/
theorem spec_C3_cex :
    respPayload FrameFormat.SPI_16 busAgcOnCheck 3 = 1 ∧
    respPayload FrameFormat.SPI_16 busAgcOnCheck 5 = 0 ∧
    (writeRegister busAgcOnCheck 0x0016 0 0 (mkDriver FrameFormat.SPI_16)).1 = true ∧
    ((writeRegister busAgcOnCheck 0x0016 0 0 (mkDriver FrameFormat.SPI_16)).2).sticky
      ≠ mappedErrBits (respPayload FrameFormat.SPI_16 busAgcOnCheck 3)
        ||| mappedErrBits (respPayload FrameFormat.SPI_16 busAgcOnCheck 5) := by
  refine ⟨by decide, by decide, by decide, by decide⟩

/-- C3 (amended): each `updateStickyErrors` call ORs in exactly the
defined ERRFL bits mapped 1:1 (bits 0-7, 9, 10 at unchanged
positions), and across any drain-free sequence of read transactions
the sticky set is the union of the mapped bits of every ERRFL value
the device returned.  Write transactions are the exception: a
successful attempt feeds only its follow-up ERRFL observation to the
sticky store and drops the ERRFL value used for the retry check. -/
theorem spec_C3 :
    (∀ sticky e : Nat, updateStickyErrors sticky e = sticky ||| mappedErrBits e) ∧
    (∀ (bus : Bus) (addrs : List Nat) (s : St),
      (readSeq bus addrs s).sticky
        = s.sticky ||| errflUnionFrom s.fmt bus s.cnt addrs.length) ∧
    (∀ (bus : Bus) (a v : Nat) (s : St),
      respPayload s.fmt bus (s.cnt + 3) &&& retryMask = 0 →
      (writeRegister bus a v 0 s).1 = true ∧
      ((writeRegister bus a v 0 s).2).sticky
        = updateStickyErrors s.sticky (respPayload s.fmt bus (s.cnt + 5))) := by
  refine ⟨?_, ?_, ?_⟩
  · intro sticky e
    rw [updateStickyErrors_or, updateStickyErrors_zero]
  · intro bus addrs s
    exact readSeq_sticky bus addrs s
  · intro bus a v s hc
    exact writeRegister_success bus a v s hc

/-- Witness for C3: the write conjunct instantiated on the all-zero
adapter (clean ERRFL check), together with the other conjuncts at
concrete arguments. -/
theorem spec_C3_witness :
    (updateStickyErrors 3 64 = 3 ||| mappedErrBits 64) ∧
    ((readSeq busZero [0x3FFF] (mkDriver FrameFormat.SPI_24)).sticky
      = (mkDriver FrameFormat.SPI_24).sticky |||
        errflUnionFrom (mkDriver FrameFormat.SPI_24).fmt busZero
          (mkDriver FrameFormat.SPI_24).cnt [0x3FFF].length) ∧
    (respPayload (mkDriver FrameFormat.SPI_16).fmt busZero
        ((mkDriver FrameFormat.SPI_16).cnt + 3) &&& retryMask = 0 ∧
     (writeRegister busZero 0x0016 0 0 (mkDriver FrameFormat.SPI_16)).1 = true ∧
     ((writeRegister busZero 0x0016 0 0 (mkDriver FrameFormat.SPI_16)).2).sticky
       = updateStickyErrors (mkDriver FrameFormat.SPI_16).sticky
           (respPayload (mkDriver FrameFormat.SPI_16).fmt busZero
             ((mkDriver FrameFormat.SPI_16).cnt + 5))) :=
  ⟨spec_C3.1 3 64, spec_C3.2.1 busZero [0x3FFF] (mkDriver FrameFormat.SPI_24),
   by decide,
   (spec_C3.2.2 busZero 0x0016 0 (mkDriver FrameFormat.SPI_16) (by decide)).1,
   (spec_C3.2.2 busZero 0x0016 0 (mkDriver FrameFormat.SPI_16) (by decide)).2⟩

/-- C4 (counterexample): the ERRFL follow-up of a getAngle attempt
reports AgcWarning (a non-retry bit), yet after getAngle completes the
sticky set is empty — the getter drained it; likewise, after retries
are exhausted on persistent CrcError reports, the sticky set is empty
rather than retaining the transport error bit. -/
theorem spec_C4_cex :
    respPayload FrameFormat.SPI_24 busAgcObserved 3 = AgcWarning ∧
    ((getAngle busAgcObserved 0 (mkDriver FrameFormat.SPI_24)).2).sticky = 0 ∧
    respPayload FrameFormat.SPI_24 busAlwaysCrcError 3 = CrcError ∧
    respPayload FrameFormat.SPI_24 busAlwaysCrcError 7 = CrcError ∧
    ((getAngle busAlwaysCrcError 1 (mkDriver FrameFormat.SPI_24)).2).sticky = 0 := by
  refine ⟨by decide, by decide, by decide, by decide, by decide⟩

/-- C4 (amended): every high-level getter drains the sticky error set
on each attempt, including the final one, so after the getter
completes the sticky set is always empty: non-retry-trigger bits
observed during the attempts are consumed by the getter rather than
left for the caller, and after exhausted retries the transport error
bit has likewise been drained (the stale value is still returned). -/
theorem spec_C4 (bus : Bus) (r : Nat) (s : St) :
    ((getAngle bus r s).2).sticky = 0 ∧
    ((getRawAngle bus r s).2).sticky = 0 ∧
    ((getVelocity bus r s).2).sticky = 0 ∧
    ((getAGC bus r s).2).sticky = 0 ∧
    ((getMagnitude bus r s).2).sticky = 0 := by
  refine ⟨?_, ?_, ?_, ?_, ?_⟩
  · rw [getAngle, getAngleLoop_sticky bus (r + 1) 0 s, if_neg (show ¬ r + 1 = 0 by omega)]
  · rw [getRawAngle, getRawAngleLoop_sticky bus (r + 1) 0 s, if_neg (show ¬ r + 1 = 0 by omega)]
  · rw [getVelocity, getVelocityLoop_sticky bus (r + 1) 0 s, if_neg (show ¬ r + 1 = 0 by omega)]
  · rw [getAGC, getAGCLoop_sticky bus (r + 1) 0 s, if_neg (show ¬ r + 1 = 0 by omega)]
  · rw [getMagnitude, getMagnitudeLoop_sticky bus (r + 1) 0 s, if_neg (show ¬ r + 1 = 0 by omega)]

/-- C5: every high-level register read issues exactly four frames: the
two-frame payload read (command, then NOP) followed by exactly one
two-frame follow-up read of ERRFL (address 0x0001) whose decoded value
is ORed into the sticky store; the follow-up is a raw read and issues
no further frames. -/
theorem spec_C5 (bus : Bus) (a : Nat) (s : St) :
    ((readRegister bus a s).2).trace
      = s.trace ++ readTxFrames s.fmt s.pad a ++ readTxFrames s.fmt s.pad 0x0001 ∧
    (readTxFrames s.fmt s.pad a).length = 2 ∧
    (readTxFrames s.fmt s.pad 0x0001).length = 2 ∧
    ((readRegister bus a s).2).trace.length = s.trace.length + 4 ∧
    ((readRegister bus a s).2).sticky
      = updateStickyErrors s.sticky (respPayload s.fmt bus (s.cnt + 3)) := by
  refine ⟨?_, readTxFrames_length _ _ _, readTxFrames_length _ _ _, ?_, ?_⟩
  · rw [readRegister_eq]
  · rw [readRegister_eq]
    simp [readTxFrames_length]
  · rw [readRegister_eq]

end AS5047U

namespace AS5047U

/-- C6 (counterexample): the CRC8 of 0x4001 (read command for ERRFL)
is 0x06, not 0x9D as the claim states; 0x06 is forced by the claim's
own algorithm description (polynomial 0x1D, seed 0xC4, MSB-first over
16 bits, final XOR 0xFF). -/
theorem spec_C6_cex :
    computeCRC8 0x4001 = 0x06 ∧ computeCRC8 0x4001 ≠ 0x9D := by
  refine ⟨by decide, by decide⟩

/-- C6 (amended): the CRC8 function is computed bit-wise MSB-first
over its 16-bit input with polynomial 0x1D and initial value 0xC4, the
result XORed with 0xFF — it agrees with the spec-worded description on
every input — and in particular for the input 0x4001 it returns 0x06. -/
theorem spec_C6 :
    (∀ x : Nat, computeCRC8 x = crc8Spec x) ∧ computeCRC8 0x4001 = 0x06 := by
  exact ⟨computeCRC8_eq_spec, by decide⟩

set_option maxRecDepth 10000 in
/-- C7 (code bug): evaluation of programOTP on a driver whose saved
format is Format16 against an adapter that reports programming
complete (PROG reads 0x0001) at the first poll.  The run succeeds, but
the saved format is restored as soon as the poll matches — before the
PROGVER write, the OTPREF pulse and the post-burn verification — so
transfer 92 (the PROGVER write command for the PROG register, address
0x0003) is a two-byte Format16 frame without CRC, contradicting the
claim that no frame of the sequence is ever exchanged under Format16
and that the format is restored only as the final step. -/
theorem spec_C7 :
    (programOTP busOtpDone (mkDriver FrameFormat.SPI_16)).1 = true ∧
    ((programOTP busOtpDone (mkDriver FrameFormat.SPI_16)).2).trace.length = 130 ∧
    ((programOTP busOtpDone (mkDriver FrameFormat.SPI_16)).2).trace.getD 92 [] = [0x00, 0x03] ∧
    (((programOTP busOtpDone (mkDriver FrameFormat.SPI_16)).2).trace.getD 92 []).length = 2 ∧
    ((programOTP busOtpDone (mkDriver FrameFormat.SPI_16)).2).fmt = FrameFormat.SPI_16 := by
  refine ⟨by decide, by decide, by decide, by decide, by decide⟩

/-- C8: for all flag combinations, configureInterface writes DISABLE
with ABI_off (bit 1) = (abi ? 0 : 1) and UVW_off (bit 0) =
(uvw ? 0 : 1), and writes SETTINGS2 with UVW_ABI (bit 3) = 1 exactly
when uvw and not abi, and PWMon (bit 7) = pwm; the DISABLE write
always happens and the SETTINGS2 write follows when it succeeds.  The
instance (true, false, true) gives ABI_off = 0, UVW_off = 1,
UVW_ABI = 0, PWMon = 1. -/
theorem spec_C8 (bus : Bus) (abi uvw pwm : Bool) (r : Nat) (s : St) :
    getField (confDisValue abi uvw ((readRegister bus 0x0015 s).1)) 1 1
      = (if abi then 0 else 1) ∧
    getField (confDisValue abi uvw ((readRegister bus 0x0015 s).1)) 0 1
      = (if uvw then 0 else 1) ∧
    getField (confS2Value abi uvw pwm
        ((readRegister bus 0x0019 (readRegister bus 0x0015 s).2).1)) 3 1
      = (if uvw && !abi then 1 else 0) ∧
    getField (confS2Value abi uvw pwm
        ((readRegister bus 0x0019 (readRegister bus 0x0015 s).2).1)) 7 1
      = (if pwm then 1 else 0) ∧
    (((configureInterface bus abi uvw pwm r s).2).writes
       = s.writes ++ [(0x0015, confDisValue abi uvw ((readRegister bus 0x0015 s).1))] ∨
     ((configureInterface bus abi uvw pwm r s).2).writes
       = s.writes ++ [(0x0015, confDisValue abi uvw ((readRegister bus 0x0015 s).1)),
                      (0x0019, confS2Value abi uvw pwm
                        ((readRegister bus 0x0019 (readRegister bus 0x0015 s).2).1))]) := by
  have hf := conf_fields abi uvw pwm ((readRegister bus 0x0015 s).1)
    ((readRegister bus 0x0019 (readRegister bus 0x0015 s).2).1)
  exact ⟨hf.1, hf.2.1, hf.2.2.1, hf.2.2.2, configureInterface_writes bus abi uvw pwm r s⟩

/-- C9: whatever bytes the adapter returns and whatever the frame
format, the public getters are bounded: getAngle, getRawAngle and
getMagnitude return at most 16383 (14-bit mask before field
extraction), getAGC at most 255 (8-bit field), and getVelocity lies in
[-8192, 8191] (14-bit two's-complement sign extension). -/
theorem spec_C9 (bus : Bus) (r : Nat) (s : St) :
    (getAngle bus r s).1 ≤ 16383 ∧
    (getRawAngle bus r s).1 ≤ 16383 ∧
    (getMagnitude bus r s).1 ≤ 16383 ∧
    (getAGC bus r s).1 ≤ 255 ∧
    (-8192 ≤ (getVelocity bus r s).1 ∧ (getVelocity bus r s).1 ≤ 8191) := by
  refine ⟨?_, ?_, ?_, ?_, ?_⟩
  · exact getAngleLoop_val_le bus (r + 1) 0 s (by omega)
  · exact getRawAngleLoop_val_le bus (r + 1) 0 s (by omega)
  · exact getMagnitudeLoop_val_le bus (r + 1) 0 s (by omega)
  · exact getAGCLoop_val_le bus (r + 1) 0 s (by omega)
  · exact getVelocityLoop_bounds bus (r + 1) 0 s (by norm_num) (by norm_num)

/-- C10: under Format16 and Format24 the bytes transmitted by every
read and write transaction, the returned values, and the whole
resulting driver state apart from the pad byte itself are independent
of the stored pad byte; setPad updates the pad byte (as a uint8) and
changes no other driver state. -/
theorem spec_C10 (bus : Bus) (a v r q : Nat) (s : St)
    (h : s.fmt = FrameFormat.SPI_16 ∨ s.fmt = FrameFormat.SPI_24) :
    rawReadRegister bus a (padTo q s)
      = ((rawReadRegister bus a s).1, padTo q ((rawReadRegister bus a s).2)) ∧
    readRegister bus a (padTo q s)
      = ((readRegister bus a s).1, padTo q ((readRegister bus a s).2)) ∧
    writeRegister bus a v r (padTo q s)
      = ((writeRegister bus a v r s).1, padTo q ((writeRegister bus a v r s).2)) ∧
    setPad q s = { s with pad := q % 256 } := by
  have hne : s.fmt ≠ FrameFormat.SPI_32 := by
    rcases h with h | h <;> simp [h]
  exact ⟨rawReadRegister_pad bus a q s hne, readRegister_pad bus a q s hne,
    writeRegister_pad bus a v r q s hne, rfl⟩

/-- Witness for C10 on the all-zero adapter in Format16. -/
theorem spec_C10_witness :
    ((mkDriver FrameFormat.SPI_16).fmt = FrameFormat.SPI_16 ∨
     (mkDriver FrameFormat.SPI_16).fmt = FrameFormat.SPI_24) ∧
    (rawReadRegister busZero 0x3FFF (padTo 7 (mkDriver FrameFormat.SPI_16))
       = ((rawReadRegister busZero 0x3FFF (mkDriver FrameFormat.SPI_16)).1,
          padTo 7 ((rawReadRegister busZero 0x3FFF (mkDriver FrameFormat.SPI_16)).2)) ∧
     readRegister busZero 0x3FFF (padTo 7 (mkDriver FrameFormat.SPI_16))
       = ((readRegister busZero 0x3FFF (mkDriver FrameFormat.SPI_16)).1,
          padTo 7 ((readRegister busZero 0x3FFF (mkDriver FrameFormat.SPI_16)).2)) ∧
     writeRegister busZero 0x3FFF 0 0 (padTo 7 (mkDriver FrameFormat.SPI_16))
       = ((writeRegister busZero 0x3FFF 0 0 (mkDriver FrameFormat.SPI_16)).1,
          padTo 7 ((writeRegister busZero 0x3FFF 0 0 (mkDriver FrameFormat.SPI_16)).2)) ∧
     setPad 7 (mkDriver FrameFormat.SPI_16)
       = { mkDriver FrameFormat.SPI_16 with pad := 7 % 256 }) :=
  ⟨Or.inl rfl, spec_C10 busZero 0x3FFF 0 0 7 (mkDriver FrameFormat.SPI_16) (Or.inl rfl)⟩

end AS5047U
